import Mathlib

/-!
Verification of the PyInventor field-marshalling and proxy layer.

This file gives a shallow embedding of the marshalling logic in
`src/PyField.cpp` and `src/PySceneObject.cpp` and proves or refutes the
frozen behavioural claims about it.

Modelling conventions:

* The marshaller never performs arithmetic on the numeric payload of a
  field; it only copies scalars between the host array object and the
  native store.  We therefore model every float32/float64/integer scalar
  by `Int`: copying is exact for either representation, and `Int` keeps
  every statement decidable for concrete witnesses.
* A numpy conversion (`PyArray_FROM_OTF` with `NPY_ARRAY_FORCECAST`)
  either fails (non-numeric input) or yields a flat element list; we pass
  its outcome as an `Option (List Int)`.
* Native handles (`SoNode*`, `SoField*`, `SoFieldContainer*`) are modelled
  by natural-number addresses; pointer comparison is comparison of those
  numbers.
* Native toolkit calls made by the binding (`SoMField::setNum`,
  `SoMField::setValues`, `SoGroup::removeChild` and friends) are modelled
  by their documented Open Inventor semantics, noted at each definition.
-/

/-- Python exception kinds raised (or deliberately not raised) by the
binding; the payload is the message handed to `PyErr_SetString`. -/
inductive PyErr where
  | typeError (msg : String)
  | valueError (msg : String)
  | indexError (msg : String)
  deriving DecidableEq, Repr

/-! ## Plane fields (PyField.cpp, getFieldValue 461-484 / setFieldValue 726-755) -/

/-- Native `SbPlane` as the binding sees it: the three normal components
handed to the `SbVec3f` constructor and the distance-from-origin scalar.
(The native constructor also renormalizes the normal; that happens inside
the wrapped toolkit, after the binding has handed the four scalars over,
and is irrelevant to the indexing claims proved here.) -/
structure SbPlane where
  n0 : Int
  n1 : Int
  n2 : Int
  dist : Int
  deriving DecidableEq, Repr

/-- Read path for `SoSFPlane` (PyField.cpp:461-468): a 4-element vector
holding normal x, y, z and the distance from origin. -/
def getSFPlane (p : SbPlane) : List Int :=
  [p.n0, p.n1, p.n2, p.dist]

/-- Read path for `SoMFPlane` (PyField.cpp:470-484): row i of the (N,4)
result is `getValues(i)`'s normal followed by its distance; the row is
written at flat offsets 4i..4i+3 of the output buffer. -/
def getMFPlane (ps : List SbPlane) : List (List Int) :=
  ps.map getSFPlane

/-- Generic `set1Value` loop: starting at index `i`, walk the item list;
for each item for which `write` produces a field element, store it at the
current index of the accumulator, then advance.  This mirrors the
`for (i = 0; i < n; ++i) ... set1Value(i, v)` loops of PyField.cpp. -/
def set1ValueLoop {α β : Type} (write : β → Option α) :
    List β → Nat → List α → List α
  | [], _, acc => acc
  | x :: rest, i, acc =>
      set1ValueLoop write rest (i + 1)
        (match write x with
         | some v => acc.set i v
         | none => acc)

/-- Native `SoMField::setNum n` (wrapped toolkit): shrink by deleting
values past index n, or grow by inserting space; grown slots hold the
default element `dflt` (for node fields a null reference; the binding
always overwrites every slot right after growing, so `dflt` is never
observable in the modelled writes). -/
def mfResize {α : Type} (old : List α) (n : Nat) (dflt : α) : List α :=
  old.take n ++ List.replicate (n - old.length) dflt

/-- Write path for `SoSFPlane` (PyField.cpp:734-740): accepted only when
the converted array has exactly 4 elements; otherwise the field keeps its
old value and no error is raised. -/
def setSFPlane (conv : Option (List Int)) (old : SbPlane) : SbPlane :=
  match conv with
  | some data =>
      if data.length = 4 then
        ⟨data.getD 0 0, data.getD 1 0, data.getD 2 0, data.getD 3 0⟩
      else old
  | none => old

/-- Write path for `SoMFPlane` (PyField.cpp:741-752): requires the flat
length to be a multiple of 4, resizes to n / 4 planes, then stores plane i
from the pointer `data + (i * 3)` - the source advances the cursor by
THREE floats per plane, so plane i reads flat elements 3i..3i+3. -/
def setMFPlane (conv : Option (List Int)) (old : List SbPlane) : List SbPlane :=
  match conv with
  | some data =>
      if data.length % 4 = 0 then
        set1ValueLoop
          (fun i => some ⟨data.getD (i * 3) 0, data.getD (i * 3 + 1) 0,
                          data.getD (i * 3 + 2) 0, data.getD (i * 3 + 3) 0⟩)
          (List.range (data.length / 4)) 0
          (mfResize old (data.length / 4) ⟨0, 0, 1, 0⟩)
      else old
  | none => old

/-- Single-plane round trip: a 4-element write followed by a read returns
the same four scalars (supporting fact for the single-plane half of the
plane claim). -/
theorem setSFPlane_roundTrip (a b c d : Int) (old : SbPlane) :
    getSFPlane (setSFPlane (some [a, b, c, d]) old) = [a, b, c, d] := by
  simp [setSFPlane, getSFPlane]

/-- C1: the multi-plane write does NOT build plane i from flat elements
4i..4i+3.  Writing the 8-element array [1,2,3,4,5,6,7,8] to an empty
multi-plane field stores the second plane from elements 3,4,5,6 (values
(4,5,6) and distance 7) instead of the claimed elements 4,5,6,7 (values
(5,6,7) and distance 8): the write cursor advances by 3 floats per plane
while the length check, the resize and the read path all use 4. -/
theorem setMFPlane_stride_bug :
    setMFPlane (some [1, 2, 3, 4, 5, 6, 7, 8]) [] =
      [⟨1, 2, 3, 4⟩, ⟨4, 5, 6, 7⟩] ∧
    setMFPlane (some [1, 2, 3, 4, 5, 6, 7, 8]) [] ≠
      [⟨1, 2, 3, 4⟩, ⟨5, 6, 7, 8⟩] := by
  constructor
  · rfl
  · decide

/-! ## Group child-list protocol (PySceneObject.cpp:1086-1241) -/

/-- Python values as the child-list and node-field code classifies them:
`node h` is a scene-object proxy of the node wrapper class holding a live
`SoNode` at address h (passes both `PyNode_Check` and
`PySceneObject_Check` plus the `isOfType(SoNode)` handle test);
`nodeProxyNull` passes the class checks but wraps a null handle;
`sceneObjNonNode` is a scene-object proxy of a non-node kind (an engine,
say): it passes `PySceneObject_Check` only; `other` is any other Python
value (number, list, none, string, ...). -/
inductive PyObj where
  | node (h : Nat)
  | nodeProxyNull
  | sceneObjNonNode
  | other
  deriving DecidableEq, Repr

/-- Outcome of a child-list mutation: the resulting child list, the C
return status (0 success, -1 failure) and the Python exception set, if
any (the source sometimes returns -1 without setting one). -/
structure SetResult where
  children : List Nat
  status : Int
  err : Option PyErr
  deriving DecidableEq, Repr

/-- Read of child `idx` (PySceneObject.cpp:1086-1111, `sq_item`): on a
group, an in-range index wraps and returns the child, an out-of-range
index sets `IndexError`; on a non-group the source deliberately returns
null without setting an error so that iteration stops (modelled as
`Except.error none`).  Negative indices are normalized by the host
runtime before this function is reached, hence `idx : Nat`. -/
def sq_item (isGroup : Bool) (children : List Nat) (idx : Nat) :
    Except (Option PyErr) Nat :=
  if isGroup then
    if h : idx < children.length then
      Except.ok (children.get ⟨idx, h⟩)
    else
      Except.error (some (.indexError "Out of range"))
  else
    Except.error none

/-- Write of child `idx` (PySceneObject.cpp:1114-1148, `sq_ass_item`).
On a group: a null item removes (the native `SoGroup::removeChild`
ignores an out-of-range index with only a console message); a node proxy
replaces when `idx < numChildren` (the native `replaceChild` ignores a
negative index) and otherwise APPENDS the node; a proxy that fails the
node-handle test, or any non-scene-object value, yields -1 with no
exception set.  On a non-group: `TypeError`. -/
def sq_ass_item (isGroup : Bool) (children : List Nat) (idx : Int)
    (item : Option PyObj) : SetResult :=
  if isGroup then
    match item with
    | none =>
        { children :=
            if 0 ≤ idx ∧ idx < (children.length : Int) then
              children.eraseIdx idx.toNat
            else children
          status := 0, err := none }
    | some (.node h) =>
        if idx < (children.length : Int) then
          { children := if 0 ≤ idx then children.set idx.toNat h else children
            status := 0, err := none }
        else
          { children := children ++ [h], status := 0, err := none }
    | some .nodeProxyNull => { children := children, status := -1, err := none }
    | some .sceneObjNonNode => { children := children, status := -1, err := none }
    | some .other => { children := children, status := -1, err := none }
  else
    { children := children, status := -1, err := some (.typeError "Not of type SoGroup") }

/-- Replacement value handed to a slice assignment: either a Python
non-sequence (`PySequence_Check` fails) or a sequence of items.  Deletion
(`value == NULL`) is outside this model: with a null value the source
loop never increments `index` and can fail to terminate. -/
inductive SliceValue where
  | nonSeq
  | seq (items : List PyObj)
  deriving DecidableEq, Repr

/-- Loop body of the slice branch of `mp_ass_subscript`
(PySceneObject.cpp:1201-1229) for a non-null value.  The C loop condition
is `(i != stop) && (index < slicelength)`; since every non-null iteration
increments `index`, the second conjunct is modelled by the fuel
`slicelength - index`, so the current `index` is
`slicelength - (fuel + 1)`.  The sequence-size check sits INSIDE the
loop, so it only ever runs when the loop body runs at least once; the
status returned by `sq_ass_item` is ignored by the source.  Because the
value is non-null, `removedChildren` stays 0 and the child index written
is `i` itself. -/
def sliceAssignLoop (isGroup : Bool) (stop step : Int) (slicelength : Nat)
    (value : SliceValue) : Int → List Nat → Nat → SetResult
  | _, children, 0 => { children := children, status := 0, err := none }
  | i, children, fuel + 1 =>
      if i = stop then { children := children, status := 0, err := none }
      else
        match value with
        | .nonSeq =>
            { children := children, status := -1
              err := some (.typeError "must assign iterable to extended slice") }
        | .seq items =>
            if items.length ≠ slicelength then
              { children := children, status := -1
                err := some (.valueError "attempt to assign sequence of wrong size") }
            else
              let item := items.getD (slicelength - (fuel + 1)) PyObj.other
              let r := sq_ass_item isGroup children i (some item)
              sliceAssignLoop isGroup stop step slicelength value (i + step) r.children fuel

/-- Slice branch of `mp_ass_subscript` (PySceneObject.cpp:1196-1231) for
a non-null value, entered with the `(start, stop, step, slicelength)`
quadruple produced by `PySlice_GetIndicesEx`. -/
def mp_ass_subscript_slice (isGroup : Bool) (children : List Nat)
    (start stop step : Int) (slicelength : Nat) (value : SliceValue) : SetResult :=
  sliceAssignLoop isGroup stop step slicelength value start children slicelength

/-- C2 counterexample: assigning a 1-element replacement to the EMPTY
slice 1:1 of a 3-child group raises nothing and succeeds (status 0, no
error) - the length-mismatch check lives inside the loop body, which
never runs for an empty slice - contradicting the claim that every
mismatched slice assignment raises a length-mismatch error. -/
theorem empty_slice_mismatch_silently_ignored :
    mp_ass_subscript_slice true [10, 20, 30] 1 1 1 0 (.seq [.node 99]) =
      { children := [10, 20, 30], status := 0, err := none } := by
  rfl

/-- C2 (amended): for every NON-empty slice (at least one iteration, i.e.
positive slice length and start distinct from stop as `PySlice_GetIndicesEx`
guarantees for a non-empty slice), assigning a replacement sequence whose
length differs from the slice length raises `ValueError` and leaves the
child list completely unchanged - the check fires on the first iteration,
before any mutation; assigning to an EMPTY slice is silently a no-op for
any replacement value. -/
theorem slice_assign_length_mismatch_raises (isGroup : Bool)
    (children : List Nat) (start stop step : Int) (slicelength : Nat)
    (items : List PyObj) (value : SliceValue)
    (hlen : 0 < slicelength) (hne : start ≠ stop)
    (hmismatch : items.length ≠ slicelength) :
    mp_ass_subscript_slice isGroup children start stop step slicelength (.seq items) =
      { children := children, status := -1
        err := some (.valueError "attempt to assign sequence of wrong size") } ∧
    mp_ass_subscript_slice isGroup children start stop step 0 value =
      { children := children, status := 0, err := none } := by
  constructor
  · obtain ⟨f, rfl⟩ : ∃ f, slicelength = f + 1 :=
      ⟨slicelength - 1, (Nat.succ_pred_eq_of_pos hlen).symm⟩
    simp [mp_ass_subscript_slice, sliceAssignLoop, hne, hmismatch]
  · rfl

/-- Witness for the amended C2 theorem at a concrete non-empty slice. -/
theorem slice_assign_length_mismatch_raises_witness :
    mp_ass_subscript_slice true [10, 20, 30] 0 2 1 2 (.seq [.node 7]) =
      { children := [10, 20, 30], status := -1
        err := some (.valueError "attempt to assign sequence of wrong size") } ∧
    mp_ass_subscript_slice true [10, 20, 30] 0 2 1 0 .nonSeq =
      { children := [10, 20, 30], status := 0, err := none } :=
  slice_assign_length_mismatch_raises true [10, 20, 30] 0 2 1 2 [.node 7]
    .nonSeq (by decide) (by decide) (by decide)

/-- C3 counterexample: assigning a node proxy at index 5 of a 1-child
group does not raise an index error - it APPENDS the node (status 0, no
exception) and so mutates the child list. -/
theorem assign_out_of_range_appends_counterexample :
    sq_ass_item true [10] 5 (some (.node 42)) =
      { children := [10, 42], status := 0, err := none } ∧
    [10, 42] ≠ ([10] : List Nat) := by
  constructor
  · rfl
  · decide

/-- C3 (amended): reading a child at an index at or past the number of
children raises `IndexError` synchronously (and, being a pure read,
leaves the children untouched); ASSIGNING a node proxy at such an index
does not raise - the source deliberately appends the node to the end of
the child list and reports success. -/
theorem indexed_access_out_of_range (children : List Nat) (idx : Nat) (h : Nat)
    (hidx : children.length ≤ idx) :
    sq_item true children idx = Except.error (some (.indexError "Out of range")) ∧
    sq_ass_item true children (idx : Int) (some (.node h)) =
      { children := children ++ [h], status := 0, err := none } := by
  constructor
  · simp [sq_item, Nat.not_lt.mpr hidx]
  · have : ¬ ((idx : Int) < (children.length : Int)) := by
      exact_mod_cast Nat.not_lt.mpr hidx
    simp [sq_ass_item, this]

/-- Witness for the amended C3 theorem on a concrete group. -/
theorem indexed_access_out_of_range_witness :
    sq_item true [10] 5 = Except.error (some (.indexError "Out of range")) ∧
    sq_ass_item true [10] (5 : Int) (some (.node 42)) =
      { children := [10, 42], status := 0, err := none } :=
  indexed_access_out_of_range [10] 5 42 (by decide)

/-! ## Numeric and multi-value field writes (PyField.cpp:30-79, 585-671) -/

/-- Shifting lemma for the `set1Value` loop: writing from index i + 1
leaves the head of the accumulator untouched. -/
theorem set1ValueLoop_shift {α β : Type} (write : β → Option α) (xs : List β) :
    ∀ (i : Nat) (a : α) (acc : List α),
      set1ValueLoop write xs (i + 1) (a :: acc) = a :: set1ValueLoop write xs i acc := by
  induction xs with
  | nil => intro i a acc; rfl
  | cons x rest ih =>
      intro i a acc
      cases hw : write x with
      | some v =>
          simp only [set1ValueLoop, hw]
          have hset : (a :: acc).set (i + 1) v = a :: acc.set i v := rfl
          rw [hset, ih]
      | none =>
          simp only [set1ValueLoop, hw]
          exact ih (i + 1) a acc

/-- When every item produces an element and the accumulator has exactly
one slot per item, the `set1Value` loop fills every slot: it returns the
image of the item list, independent of the previous contents. -/
theorem set1ValueLoop_map {α β : Type} (write : β → Option α) (f : β → α) :
    ∀ (xs : List β) (base : List α), (∀ x ∈ xs, write x = some (f x)) →
      base.length = xs.length → set1ValueLoop write xs 0 base = xs.map f := by
  intro xs
  induction xs with
  | nil =>
      intro base _ hb
      cases base with
      | nil => rfl
      | cons b bs => simp at hb
  | cons x rest ih =>
      intro base hw hb
      cases base with
      | nil => simp at hb
      | cons b bs =>
          have hwx : write x = some (f x) := hw x (by simp)
          simp only [set1ValueLoop, hwx]
          have hset : (b :: bs).set 0 (f x) = f x :: bs := rfl
          rw [hset]
          have hshift := set1ValueLoop_shift write rest 0 (f x) bs
          rw [hshift]
          have hrest : set1ValueLoop write rest 0 bs = rest.map f :=
            ih bs (fun y hy => hw y (by simp [hy])) (by simpa using hb)
          simp [hrest]

/-- Resizing always yields exactly the requested number of slots. -/
theorem mfResize_length {α : Type} (old : List α) (n : Nat) (d : α) :
    (mfResize old n d).length = n := by
  simp only [mfResize, List.length_append, List.length_take, List.length_replicate]
  omega

/-- Single-value branch of `SOFIELD_SET` (PyField.cpp:62-71), used for
`SoSFFloat`, `SoSFDouble`, `SoSFInt32`, `SoSFUInt32`, `SoSFShort`,
`SoSFUShort` and `SoSFBool`: a converted array of exactly one element is
stored; any other element count is skipped with no error (the only error
in this branch is the one numpy itself sets when the input is not
convertible at all). -/
def sofieldSetSF (conv : Option (List Int)) (old : Int) : Int × Option PyErr :=
  match conv with
  | some arr => (if arr.length = 1 then arr.getD 0 0 else old, none)
  | none => (old, some (.typeError "conversion to array failed"))

/-- Single-value branch of `SOFIELD_SET_N` (PyField.cpp:30-42), used for
`SoSFVec2f`, `SoSFVec3f`, `SoSFVec4f`, `SoSFColor`, `SoSFRotation` and
`SoSFMatrix` with widths 2, 3, 4, 3, 4 and 16: only an array of exactly
`n` elements is stored; any other count is skipped with no error. -/
def sofieldSetNSF (n : Nat) (conv : Option (List Int)) (old : List Int) :
    List Int × Option PyErr :=
  match conv with
  | some arr => (if arr.length = n then arr else old, none)
  | none => (old, some (.typeError "conversion to array failed"))

/-- Native `SoMField::setValues(0, n, data)` (wrapped toolkit): overwrites
the first n entries and enlarges the field when n exceeds the current
count, but never shrinks it - entries past n keep their old values. -/
def soMFieldSetValues0 (vals old : List Int) : List Int :=
  vals ++ old.drop vals.length

/-- Multi-value branch of `SOFIELD_SET` (PyField.cpp:72-79), used for the
scalar multi-fields `SoMFFloat` .. `SoMFBool`: the whole converted array
is handed to `setValues(0, size, data)` with no resize call. -/
def sofieldSetMF (conv : Option (List Int)) (old : List Int) : List Int × Option PyErr :=
  match conv with
  | some arr => (soMFieldSetValues0 arr old, none)
  | none => (old, some (.typeError "conversion to array failed"))

/-- Multi-value branch of `SOFIELD_SET_N` (PyField.cpp:43-58), used for
`SoMFVec2f` .. `SoMFMatrix`: requires the flat length to be a multiple of
the width n, calls `setNum(size / n)` and then stores every element i
from the n floats at `data + i * n`. -/
def sofieldSetNMF (n : Nat) (conv : Option (List Int)) (old : List (List Int)) :
    List (List Int) × Option PyErr :=
  match conv with
  | some arr =>
      (if arr.length % n = 0 then
        set1ValueLoop (fun i => some ((arr.drop (i * n)).take n))
          (List.range (arr.length / n)) 0 (mfResize old (arr.length / n) [])
      else old, none)
  | none => (old, some (.typeError "conversion to array failed"))

/-- Read of a scalar multi-field (`SOFIELD_GETF` / `SOFIELD_GETL`,
PyField.cpp:82-89, multi branch): copies out `getNum()` stored scalars. -/
def sofieldGetMF (stored : List Int) : List Int := stored

/-- Read of a vector multi-field (`SOFIELD_GET_N`, PyField.cpp:92-102,
multi branch): copies out the `getNum()` stored rows of width n. -/
def sofieldGetNMF (stored : List (List Int)) : List (List Int) := stored

/-- Value written to an `SoMFNode` field (PyField.cpp:585-613): a single
node proxy is installed via `setValue` (the field becomes that one node);
anything else is treated as a sequence. -/
inductive MFNodeInput where
  | single (h : Nat)
  | seq (items : List PyObj)
  deriving DecidableEq, Repr

/-- Write path for `SoMFNode` (PyField.cpp:585-613).  The sequence case
calls `setNum(n)` and then, for each index whose item passes
`PyNode_Check`, `set1Value(i, child->inventorObject)` - note the loop
does not re-check the wrapped handle, so a node-class proxy with a null
handle stores a null reference, while non-node items leave whatever the
resize put at their slot. -/
def setMFNode (input : MFNodeInput) (old : List (Option Nat)) : List (Option Nat) :=
  match input with
  | .single h => [some h]
  | .seq items =>
      set1ValueLoop
        (fun it =>
          match it with
          | PyObj.node h => some (some h)
          | PyObj.nodeProxyNull => some none
          | PyObj.sceneObjNonNode => none
          | PyObj.other => none)
        items 0 (mfResize old items.length none)

/-- Sequence write path for `SoMFString` (PyField.cpp:628-656): a
non-string sequence input resizes the field to the input length and
stores `str(item)` for every index (the text of each item is the model
input). -/
def setMFStringSeq (items : List String) (old : List String) : List String :=
  set1ValueLoop (fun s => some s) items 0 (mfResize old items.length "")

/-- C4: for every numeric single-value field (required count 1) and every
fixed-width-vector field (required count n), a converted input array
whose total element count differs from the required count is silently
absorbed: the stored value is unchanged and no error is set. -/
theorem numeric_wrong_size_silent_noop (n : Nat) (arr arr2 : List Int)
    (old : Int) (oldv : List Int)
    (h1 : arr.length ≠ 1) (h2 : arr2.length ≠ n) :
    sofieldSetSF (some arr) old = (old, none) ∧
    sofieldSetNSF n (some arr2) oldv = (oldv, none) := by
  constructor
  · simp [sofieldSetSF, h1]
  · simp [sofieldSetNSF, h2]

/-- Witness for the C4 theorem: a 2-element write to a scalar field and a
1-element write to a 3-vector field are both no-ops. -/
theorem numeric_wrong_size_silent_noop_witness :
    sofieldSetSF (some [1, 2]) 7 = (7, none) ∧
    sofieldSetNSF 3 (some [5]) [1, 2, 3] = ([1, 2, 3], none) :=
  numeric_wrong_size_silent_noop 3 [1, 2] [5] 7 [1, 2, 3] (by decide) (by decide)

/-- C5 counterexample: writing the 1-element array [9] to a scalar
multi-field currently holding [1, 2, 3] yields [9, 2, 3] - the native
`setValues` call never shrinks the field, so two stale entries survive
and the resulting length is 3, not the claimed 1. -/
theorem scalar_multi_write_keeps_stale_tail :
    sofieldSetMF (some [9]) [1, 2, 3] = ([9, 2, 3], none) ∧
    (sofieldSetMF (some [9]) [1, 2, 3]).1.length ≠ 1 := by
  constructor
  · rfl
  · decide

/-- C5 (amended): multi-field writes that go through `setNum` - the
vector-typed numeric multi-fields, `SoMFNode` sequences of node proxies
and `SoMFString` sequences - resize the field to exactly the input length
N regardless of its previous length and store the input element-wise (a
read returns exactly the stored rows); the scalar numeric multi-fields
(`SoMFFloat` .. `SoMFBool`) instead go through `setValues(0, N)`, which
overwrites the first N entries and grows the field when N is larger but
never shrinks it, so a previously longer field keeps its stale tail. -/
theorem multi_field_write_resize_semantics (n N : Nat) (arr : List Int)
    (old1 : List (List Int)) (handles : List Nat) (old2 : List (Option Nat))
    (strs : List String) (old3 : List String) (arr2 : List Int) (old4 : List Int)
    (hn : 0 < n) (hlen : arr.length = N * n) :
    sofieldSetNMF n (some arr) old1 =
      ((List.range N).map (fun i => (arr.drop (i * n)).take n), none) ∧
    sofieldGetNMF (sofieldSetNMF n (some arr) old1).1 = (sofieldSetNMF n (some arr) old1).1 ∧
    setMFNode (.seq (handles.map PyObj.node)) old2 = handles.map some ∧
    setMFStringSeq strs old3 = strs ∧
    sofieldSetMF (some arr2) old4 = (arr2 ++ old4.drop arr2.length, none) := by
  refine ⟨?_, rfl, ?_, ?_, rfl⟩
  · have hmod : arr.length % n = 0 := by
      rw [hlen]; exact Nat.mul_mod_left N n
    have hdiv : arr.length / n = N := by
      rw [hlen]; exact Nat.mul_div_cancel N hn
    simp only [sofieldSetNMF, hmod, if_pos, hdiv]
    rw [set1ValueLoop_map _ (fun i => (arr.drop (i * n)).take n)
        (List.range N) (mfResize old1 N []) (fun x _ => rfl)
        (by rw [mfResize_length, List.length_range])]
  · rw [setMFNode]
    rw [set1ValueLoop_map _ (fun it =>
          match it with
          | PyObj.node h => some h
          | PyObj.nodeProxyNull => none
          | PyObj.sceneObjNonNode => none
          | PyObj.other => none)
        (handles.map PyObj.node) (mfResize old2 (handles.map PyObj.node).length none)
        ?_ ?_]
    · simp [List.map_map, Function.comp]
    · intro x hx
      obtain ⟨h, _, rfl⟩ := List.mem_map.mp hx
      rfl
    · rw [mfResize_length, List.length_map]
  · rw [setMFStringSeq]
    rw [set1ValueLoop_map _ (fun s => s) strs (mfResize old3 strs.length "")
        (fun x _ => rfl) (by rw [mfResize_length])]
    simp

/-- Witness for the amended C5 theorem: two 2-vectors, two node handles,
two strings and a shorter-than-before scalar write. -/
theorem multi_field_write_resize_semantics_witness :
    sofieldSetNMF 2 (some [1, 2, 3, 4]) [[9, 9], [8, 8], [7, 7]] =
      ((List.range 2).map (fun i => (([1, 2, 3, 4] : List Int).drop (i * 2)).take 2), none) ∧
    sofieldGetNMF (sofieldSetNMF 2 (some [1, 2, 3, 4]) [[9, 9], [8, 8], [7, 7]]).1 =
      (sofieldSetNMF 2 (some [1, 2, 3, 4]) [[9, 9], [8, 8], [7, 7]]).1 ∧
    setMFNode (.seq ([5, 6].map PyObj.node)) [none] = [5, 6].map some ∧
    setMFStringSeq ["a", "b"] ["x", "y", "z"] = ["a", "b"] ∧
    sofieldSetMF (some [9]) [1, 2, 3] = ([9] ++ ([1, 2, 3] : List Int).drop 1, none) :=
  multi_field_write_resize_semantics 2 2 [1, 2, 3, 4] [[9, 9], [8, 8], [7, 7]]
    [5, 6] [none] ["a", "b"] ["x", "y", "z"] [9] [1, 2, 3] (by decide) (by decide)

/-! ## Rotation writes (PyField.cpp:756-799) -/

/-- A Python object as `getFloatsFromPyObject` and the "Of" tuple format
see it: `arrayConv` is the outcome of the float-array conversion (none
when the object is not numeric), `floatConv` the outcome of converting
the object with the "f" format code. -/
structure PyNumObj where
  arrayConv : Option (List Int)
  floatConv : Option Int
  deriving DecidableEq, Repr

/-- Helper `PyField::getFloatsFromPyObject` (PyField.cpp:363-382):
succeeds exactly when the object converts to an array of exactly `size`
elements. -/
def getFloatsFrom (conv : Option (List Int)) (size : Nat) : Option (List Int) :=
  match conv with
  | some xs => if xs.length = size then some xs else none
  | none => none

/-- Value written to an `SoSFRotation` field.  `tuple2 a b` is a Python
2-tuple; every other input (in particular a flat numeric array) fails
both `PyArg_ParseTuple` calls WITHOUT writing the `axis` variable, whose
null value then makes every later conversion attempt fail - the carried
conversion outcome of a `flat` input is never consulted by the source. -/
inductive RotInput where
  | tuple2 (a b : PyNumObj)
  | flat (conv : Option (List Int))
  | otherObj
  deriving DecidableEq, Repr

/-- Stored value of an `SoSFRotation` field after a write, tagged by the
native `setValue` overload that produced it; `prior` is whatever the
field held before the write. -/
inductive RotState where
  | axisAngle (axis : List Int) (angle : Int)
  | fromTo (fromV toV : List Int)
  | matrix (m : List Int)
  | quat (q : List Int)
  | prior
  deriving DecidableEq, Repr

/-- Fallback of the rotation write (PyField.cpp:783-798): with no value
set yet, try the FIRST TUPLE ELEMENT (the `axis` variable - the local
`float value[16]` shadows the input parameter, so the input itself is
never consulted here) as a 16-element matrix, then as a 4-element
quaternion. -/
def rotMatrixQuatFallback (axis : Option (List Int)) (old : RotState) : RotState :=
  match getFloatsFrom axis 16 with
  | some m => .matrix m
  | none =>
      match getFloatsFrom axis 4 with
      | some q => .quat q
      | none => old

/-- Write path for `SoSFRotation` (PyField.cpp:756-799).  For a 2-tuple
`(a, b)`: if b converts to a float, try a as a 3-element axis (axis plus
angle); otherwise try a and b as 3-element from/to vectors; in either
case, on failure fall back to trying a as a matrix and then as a
quaternion.  Any non-2-tuple input leaves `axis` null, so nothing is ever
stored and the field keeps its old value. -/
def setSFRotation (value : RotInput) (old : RotState) : RotState :=
  match value with
  | .tuple2 a b =>
      match b.floatConv with
      | some angle =>
          match getFloatsFrom a.arrayConv 3 with
          | some axis => .axisAngle axis angle
          | none => rotMatrixQuatFallback a.arrayConv old
      | none =>
          match getFloatsFrom a.arrayConv 3, getFloatsFrom b.arrayConv 3 with
          | some f, some t => .fromTo f t
          | _, _ => rotMatrixQuatFallback a.arrayConv old
  | .flat _ => old
  | .otherObj => old

/-- C6: writing a flat 4-element quaternion array to a rotation field is
a silent no-op, not an accepted representation: the matrix and quaternion
attempts read the tuple-parse temporary (null for a non-tuple input), so
the field keeps its prior value instead of the claimed quaternion.  (A
quaternion is only accepted smuggled in as the FIRST element of a
2-tuple, as the second conjunct shows.) -/
theorem rotation_flat_quaternion_ignored :
    setSFRotation (.flat (some [0, 0, 0, 1])) .prior = .prior ∧
    setSFRotation (.flat (some [0, 0, 0, 1])) .prior ≠ .quat [0, 0, 0, 1] ∧
    setSFRotation (.tuple2 ⟨some [0, 0, 0, 1], none⟩ ⟨none, none⟩) .prior =
      .quat [0, 0, 0, 1] := by
  refine ⟨rfl, by decide, rfl⟩

/-! ## Trigger fields (PyField.cpp:672-675, PySceneObject.cpp:953-973) -/

/-- Outcome of the `SoSFTrigger` branch of `setFieldValue`: the running
touch-notification count of the field, the C return status and the
exception state.  A trigger field stores no value, so the count is the
whole field state. -/
structure TriggerWriteResult where
  touches : Nat
  status : Int
  err : Option PyErr
  deriving DecidableEq, Repr

/-- Write path for `SoSFTrigger` (PyField.cpp:672-675): the branch is
`field->touch()` and nothing else - the supplied value is never
inspected, no value is stored, no error is set. -/
def setSFTrigger (_value : PyObj) (touches : Nat) : TriggerWriteResult :=
  { touches := touches + 1, status := 0, err := none }

/-- Effect of `PySceneObject::tp_setattro` (PySceneObject.cpp:953-973)
when the attribute names a field: which of the three actions ran. -/
structure AttrSetEffect where
  touches : Nat
  calledSetFieldValue : Bool
  fellThroughToGeneric : Bool
  deriving DecidableEq, Repr

/-- Attribute write on a scene object (PySceneObject.cpp:953-973): a
non-trigger field forwards to `setFieldValue`; a trigger field is touched
and then - the branch does not return - control falls through to
`PyObject_GenericSetAttr`; a name that is no field goes straight to the
generic path. -/
def tp_setattro (hasField isTrigger : Bool) (touches : Nat) : AttrSetEffect :=
  if hasField then
    if isTrigger then
      { touches := touches + 1, calledSetFieldValue := false, fellThroughToGeneric := true }
    else
      { touches := touches, calledSetFieldValue := true, fellThroughToGeneric := false }
  else
    { touches := touches, calledSetFieldValue := false, fellThroughToGeneric := true }

/-- C7: a write to a trigger field, with any value whatsoever, discards
the value (the result is the same for every pair of values), stores
nothing in the field (the field state is only the touch count), fires
exactly one touch notification, and does so on both write routes - the
field-proxy route and the scene-object attribute route (where the value
is likewise never handed to the marshaller). -/
theorem trigger_write_touches_and_ignores_value (v w : PyObj) (t : Nat) :
    setSFTrigger v t = { touches := t + 1, status := 0, err := none } ∧
    setSFTrigger v t = setSFTrigger w t ∧
    tp_setattro true true t =
      { touches := t + 1, calledSetFieldValue := false, fellThroughToGeneric := true } := by
  exact ⟨rfl, rfl, rfl⟩

/-! ## Proxy comparison (PySceneObject.cpp:976-999, PyField.cpp:300-323) -/

/-- Comparison operators of the Python rich-comparison protocol. -/
inductive CmpOp where
  | lt | le | eq | ne | gt | ge
  deriving DecidableEq, Repr

/-- Result of a rich comparison: a boolean, or `NotImplemented` when the
right operand is not a proxy of the same kind. -/
inductive CmpResult where
  | notImplemented
  | boolean (b : Bool)
  deriving DecidableEq, Repr

/-- Pointer comparison of two native handles, as the `switch` blocks of
both `tp_richcompare` implementations perform it. -/
def cmpHandles (a b : Nat) : CmpOp → Bool
  | .lt => a < b
  | .le => a ≤ b
  | .eq => a = b
  | .ne => a ≠ b
  | .gt => b < a
  | .ge => b ≤ a

/-- Scene-object comparison (PySceneObject.cpp:976-999): if the right
operand is a scene-object proxy (`none` models any other Python value),
compare the two `inventorObject` handle addresses; otherwise
`NotImplemented`. -/
def sceneobject_richcompare (a : Nat) (b : Option Nat) (op : CmpOp) : CmpResult :=
  match b with
  | some bh => .boolean (cmpHandles a bh op)
  | none => .notImplemented

/-- Field-proxy comparison (PyField.cpp:300-323): same shape, on the
`field` handle addresses. -/
def field_richcompare (a : Nat) (b : Option Nat) (op : CmpOp) : CmpResult :=
  match b with
  | some bh => .boolean (cmpHandles a bh op)
  | none => .notImplemented

/-- C8: equality between proxies of the same kind is native-handle
identity.  Two proxies on the same handle compare equal; two proxies on
distinct handles compare unequal under every store of field values - in
particular under a store assigning both handles identical field values -
for scene-object proxies and field proxies alike. -/
theorem richcompare_handle_identity (values : Nat → List Int) (h1 h2 : Nat)
    (hne : h1 ≠ h2) (hsame : values h1 = values h2) :
    sceneobject_richcompare h1 (some h1) .eq = .boolean true ∧
    sceneobject_richcompare h1 (some h2) .eq = .boolean false ∧
    sceneobject_richcompare h1 (some h2) .ne = .boolean true ∧
    field_richcompare h1 (some h1) .eq = .boolean true ∧
    field_richcompare h1 (some h2) .eq = .boolean false ∧
    field_richcompare h1 (some h2) .ne = .boolean true := by
  refine ⟨?_, ?_, ?_, ?_, ?_, ?_⟩ <;>
    simp [sceneobject_richcompare, field_richcompare, cmpHandles, hne]

/-- Witness for the C8 theorem: handles 0 and 1 with a constant value
store, so the two distinct native objects hold identical field values. -/
theorem richcompare_handle_identity_witness :
    sceneobject_richcompare 0 (some 0) .eq = .boolean true ∧
    sceneobject_richcompare 0 (some 1) .eq = .boolean false ∧
    sceneobject_richcompare 0 (some 1) .ne = .boolean true ∧
    field_richcompare 0 (some 0) .eq = .boolean true ∧
    field_richcompare 0 (some 1) .eq = .boolean false ∧
    field_richcompare 0 (some 1) .ne = .boolean true :=
  richcompare_handle_identity (fun _ => [3]) 0 1 (by decide) rfl

/-! ## Single-node fields (PyField.cpp:554-584) -/

/-- Write path for `SoSFNode` (PyField.cpp:554-584), returning the new
node reference of the field and whether it was installed through the
node-kit catalog's `setPart` (the special case for a field that is a
registered part of a kit, `isKitPart`).  A value passing `PyNode_Check`
with a live node handle installs that node; a node-class proxy with a
null or non-node handle does nothing; every other value - none, a
number, a list, even a non-node scene-object proxy - takes the `else`
branch `setValue(0)` and clears the reference. -/
def setSFNode (isKitPart : Bool) (value : PyObj) (old : Option Nat) :
    Option Nat × Bool :=
  match value with
  | .node h => (some h, isKitPart)
  | .nodeProxyNull => (old, false)
  | .sceneObjNonNode => (none, false)
  | .other => (none, false)

/-- C10: writing any value that is not a node proxy to a single-node
field clears it to null - this covers numbers, lists, none and also
scene-object proxies of non-node kinds - while a valid node proxy (and
only such a value) installs its node, via `setPart` exactly when the
field is a registered kit part. -/
theorem sfnode_write_clears_unless_node_proxy (kp : Bool) (old : Option Nat) (h : Nat) :
    setSFNode kp PyObj.other old = (none, false) ∧
    setSFNode kp PyObj.sceneObjNonNode old = (none, false) ∧
    setSFNode kp (PyObj.node h) old = (some h, kp) ∧
    (setSFNode kp PyObj.nodeProxyNull old).1 = old := by
  exact ⟨rfl, rfl, rfl, rfl⟩

/-! ## Dynamic class registry (PySceneObject.cpp:537-627) -/

/-- What the native runtime type system reports about a registered type
name: its parent type's name and the parent predicates the registry
consults (`canCreateInstance`, `isDerivedFrom(SoNode)`,
`isDerivedFrom(SoEngine)`). -/
structure NativeTypeInfo where
  parentName : String
  parentCanCreate : Bool
  parentIsNodeDerived : Bool
  parentIsEngineDerived : Bool
  deriving DecidableEq, Repr

/-- A Python type object as the registry produces it: one of the three
fixed built-in bases, a dynamically built wrapper type (its `tp_base` is
the recorded base descriptor), or `nullBase` standing for the C null
`tp_base` left behind when the recursive base lookup fails. -/
inductive Descriptor where
  | nodeType
  | engineType
  | fieldContainerType
  | nullBase
  | wrapper (name : String) (base : Descriptor)
  deriving DecidableEq, Repr

/-- Lookup in the process-wide `sceneObjectTypes` map, keyed by type
name. -/
def regFind : List (String × Descriptor) → String → Option Descriptor
  | [], _ => none
  | (k, d) :: rest, name => if name = k then some d else regFind rest name

/-- The class registry `PySceneObject::getWrapperType`
(PySceneObject.cpp:537-627).  The three built-in base categories resolve
to their fixed descriptors before the cache is consulted; a cached name
returns its stored descriptor unchanged; otherwise an unknown native
name yields null, and a known one builds a wrapper whose base is the
parent's recursively resolved descriptor when the parent can be
instantiated, or the nearest ancestor-category base otherwise, inserting
the new descriptor into the cache.  The parent chain of a real type
system is finite; `fuel` bounds the recursion depth in the model and is
consumed only by the recursive parent resolution. -/
def getWrapperType (ts : String → Option NativeTypeInfo) (fuel : Nat)
    (reg : List (String × Descriptor)) (name : String) :
    List (String × Descriptor) × Option Descriptor :=
  if name = "Node" then (reg, some Descriptor.nodeType)
  else if name = "Engine" then (reg, some Descriptor.engineType)
  else if name = "FieldContainer" ∨ name = "GlobalField" then
    (reg, some Descriptor.fieldContainerType)
  else
    match regFind reg name with
    | some d => (reg, some d)
    | none =>
        match ts name with
        | none => (reg, none)
        | some info =>
            match fuel with
            | 0 => (reg, none)
            | f + 1 =>
                match (if info.parentCanCreate then
                         getWrapperType ts f reg info.parentName
                       else if info.parentIsNodeDerived then
                         (reg, some Descriptor.nodeType)
                       else if info.parentIsEngineDerived then
                         (reg, some Descriptor.engineType)
                       else (reg, some Descriptor.fieldContainerType)) with
                | (reg1, base) =>
                    ((name, Descriptor.wrapper name (base.getD Descriptor.nullBase)) :: reg1,
                     some (Descriptor.wrapper name (base.getD Descriptor.nullBase)))

/-- C9: once a name has resolved to a descriptor, resolving it again -
with any recursion budget - returns the very entry stored in the cache
and leaves the registry untouched (no second class object is built), and
the built-in base names always resolve to their fixed descriptors on any
registry state. -/
theorem wrapper_type_cached_and_builtin (ts : String → Option NativeTypeInfo)
    (fuel fuel2 : Nat) (reg reg2 : List (String × Descriptor)) (name : String)
    (d : Descriptor)
    (h : getWrapperType ts fuel reg name = (reg2, some d)) :
    getWrapperType ts fuel2 reg2 name = (reg2, some d) ∧
    (∀ r, getWrapperType ts fuel2 r "Node" = (r, some Descriptor.nodeType)) ∧
    (∀ r, getWrapperType ts fuel2 r "Engine" = (r, some Descriptor.engineType)) ∧
    (∀ r, getWrapperType ts fuel2 r "FieldContainer" = (r, some Descriptor.fieldContainerType)) ∧
    (∀ r, getWrapperType ts fuel2 r "GlobalField" = (r, some Descriptor.fieldContainerType)) := by
  refine ⟨?_, fun r => by rw [getWrapperType]; simp, fun r => by rw [getWrapperType]; simp,
    fun r => by rw [getWrapperType]; simp, fun r => by rw [getWrapperType]; simp⟩
  by_cases hn : name = "Node"
  · subst hn
    rw [getWrapperType] at h
    simp only [if_pos rfl] at h
    obtain ⟨rfl, rfl⟩ : reg = reg2 ∧ Descriptor.nodeType = d :=
      ⟨congrArg Prod.fst h, Option.some.inj (congrArg Prod.snd h)⟩
    rw [getWrapperType]; simp
  by_cases he : name = "Engine"
  · subst he
    rw [getWrapperType] at h
    simp at h
    obtain ⟨rfl, rfl⟩ : reg = reg2 ∧ Descriptor.engineType = d := ⟨h.1, h.2⟩
    rw [getWrapperType]; simp
  by_cases hfc : name = "FieldContainer" ∨ name = "GlobalField"
  · rw [getWrapperType] at h
    rw [if_neg hn, if_neg he, if_pos hfc] at h
    obtain ⟨rfl, rfl⟩ : reg = reg2 ∧ Descriptor.fieldContainerType = d :=
      ⟨congrArg Prod.fst h, Option.some.inj (congrArg Prod.snd h)⟩
    rw [getWrapperType]
    rw [if_neg hn, if_neg he, if_pos hfc]
  · rw [getWrapperType] at h
    rw [if_neg hn, if_neg he, if_neg hfc] at h
    cases hfind : regFind reg name with
    | some d0 =>
        simp only [hfind] at h
        obtain ⟨rfl, rfl⟩ : reg = reg2 ∧ d0 = d :=
          ⟨congrArg Prod.fst h, Option.some.inj (congrArg Prod.snd h)⟩
        rw [getWrapperType]
        rw [if_neg hn, if_neg he, if_neg hfc]
        simp only [hfind]
    | none =>
        simp only [hfind] at h
        cases hts : ts name with
        | none =>
            simp only [hts] at h
            exact absurd (congrArg Prod.snd h) (by simp)
        | some info =>
            simp only [hts] at h
            cases fuel with
            | zero =>
                simp only [] at h
                exact absurd (congrArg Prod.snd h) (by simp)
            | succ f =>
                cases hpr : (if info.parentCanCreate then
                    getWrapperType ts f reg info.parentName
                  else if info.parentIsNodeDerived then
                    (reg, some Descriptor.nodeType)
                  else if info.parentIsEngineDerived then
                    (reg, some Descriptor.engineType)
                  else (reg, some Descriptor.fieldContainerType)) with
                | mk reg1 base =>
                    simp only [hpr] at h
                    have hreg2 :
                        ((name, Descriptor.wrapper name (base.getD Descriptor.nullBase)) :: reg1)
                          = reg2 := congrArg Prod.fst h
                    have hd : Descriptor.wrapper name (base.getD Descriptor.nullBase) = d :=
                      Option.some.inj (congrArg Prod.snd h)
                    subst hreg2
                    subst hd
                    rw [getWrapperType]
                    rw [if_neg hn, if_neg he, if_neg hfc]
                    simp [regFind]

/-- Tiny native type system for the registry witness: one registered
name whose parent is the node base and cannot itself be instantiated. -/
def tsOneNode : String → Option NativeTypeInfo := fun n =>
  if n = "Foo" then some ⟨"Node", false, true, false⟩ else none

/-- Witness for the C9 theorem: resolve "Foo" once from the empty cache,
then resolve it again from the resulting cache. -/
theorem wrapper_type_cached_and_builtin_witness :
    getWrapperType tsOneNode 3
        [("Foo", Descriptor.wrapper "Foo" Descriptor.nodeType)] "Foo" =
      ([("Foo", Descriptor.wrapper "Foo" Descriptor.nodeType)],
       some (Descriptor.wrapper "Foo" Descriptor.nodeType)) ∧
    (∀ r, getWrapperType tsOneNode 3 r "Node" = (r, some Descriptor.nodeType)) ∧
    (∀ r, getWrapperType tsOneNode 3 r "Engine" = (r, some Descriptor.engineType)) ∧
    (∀ r, getWrapperType tsOneNode 3 r "FieldContainer" = (r, some Descriptor.fieldContainerType)) ∧
    (∀ r, getWrapperType tsOneNode 3 r "GlobalField" = (r, some Descriptor.fieldContainerType)) :=
  wrapper_type_cached_and_builtin tsOneNode 5 3 []
    [("Foo", Descriptor.wrapper "Foo" Descriptor.nodeType)] "Foo"
    (Descriptor.wrapper "Foo" Descriptor.nodeType)
    (by rw [getWrapperType]; simp [tsOneNode, regFind])
